import Mathlib

/-!
Verification of the data-freshness and derived-view pipeline of the
Canvas Plus browser extension (StorageService, CanvasAPIService,
StateManager, content-script orchestration).

Modelling conventions:
* Clock instants and `due_at` timestamps are milliseconds since the epoch,
  embedded as `Int` (a `due_at` that is absent or unparseable is `none`).
* Fractional JS numbers (`hoursUntilDue`, `position`) are embedded as `ℚ`.
* `JSON.stringify` is embedded over an explicit JSON value type whose
  objects are ordered field lists, matching JS key insertion order.
* `crypto.subtle.digest('SHA-256', _)` is embedded as a full SHA-256
  implementation over byte lists (validated below on standard vectors).
-/

/-! ### SHA-256 (model of crypto.subtle.digest('SHA-256', ·)) -/

def rotr32 (n w : Nat) : Nat := (w / 2 ^ n + w % 2 ^ n * 2 ^ (32 - n)) % 2 ^ 32

def add32 (a b : Nat) : Nat := (a + b) % 2 ^ 32

def not32 (w : Nat) : Nat := w ^^^ 0xffffffff

def bigSigma0 (w : Nat) : Nat := rotr32 2 w ^^^ rotr32 13 w ^^^ rotr32 22 w

def bigSigma1 (w : Nat) : Nat := rotr32 6 w ^^^ rotr32 11 w ^^^ rotr32 25 w

def smallSigma0 (w : Nat) : Nat := rotr32 7 w ^^^ rotr32 18 w ^^^ w / 2 ^ 3

def smallSigma1 (w : Nat) : Nat := rotr32 17 w ^^^ rotr32 19 w ^^^ w / 2 ^ 10

def chFn (x y z : Nat) : Nat := (x &&& y) ^^^ (not32 x &&& z)

def majFn (x y z : Nat) : Nat := (x &&& y) ^^^ (x &&& z) ^^^ (y &&& z)

def K256 : List Nat :=
  [1116352408, 1899447441, 3049323471, 3921009573, 961987163, 1508970993,
   2453635748, 2870763221, 3624381080, 310598401, 607225278, 1426881987,
   1925078388, 2162078206, 2614888103, 3248222580, 3835390401, 4022224774,
   264347078, 604807628, 770255983, 1249150122, 1555081692, 1996064986,
   2554220882, 2821834349, 2952996808, 3210313671, 3336571891, 3584528711,
   113926993, 338241895, 666307205, 773529912, 1294757372, 1396182291,
   1695183700, 1986661051, 2177026350, 2456956037, 2730485921, 2820302411,
   3259730800, 3345764771, 3516065817, 3600352804, 4094571909, 275423344,
   430227734, 506948616, 659060556, 883997877, 958139571, 1322822218,
   1537002063, 1747873779, 1955562222, 2024104815, 2227730452, 2361852424,
   2428436474, 2756734187, 3204031479, 3329325298]

def sha256init : List Nat :=
  [1779033703, 3144134277, 1013904242, 2773480762,
   1359893119, 2600822924, 528734635, 1541459225]

def lenBytesBE (n : Nat) : List Nat :=
  [n / 2 ^ 56 % 256, n / 2 ^ 48 % 256, n / 2 ^ 40 % 256, n / 2 ^ 32 % 256,
   n / 2 ^ 24 % 256, n / 2 ^ 16 % 256, n / 2 ^ 8 % 256, n % 256]

def padMessage (msg : List Nat) : List Nat :=
  msg ++ 0x80 :: List.replicate ((119 - msg.length % 64) % 64) 0 ++ lenBytesBE (msg.length * 8)

def bytesToWords : List Nat → List Nat
  | b0 :: b1 :: b2 :: b3 :: rest => (b0 * 2 ^ 24 + b1 * 2 ^ 16 + b2 * 2 ^ 8 + b3) :: bytesToWords rest
  | _ => []

def wordsToBlocks : List Nat → List (List Nat)
  | w0 :: w1 :: w2 :: w3 :: w4 :: w5 :: w6 :: w7 ::
    w8 :: w9 :: w10 :: w11 :: w12 :: w13 :: w14 :: w15 :: rest =>
      [w0, w1, w2, w3, w4, w5, w6, w7, w8, w9, w10, w11, w12, w13, w14, w15] :: wordsToBlocks rest
  | _ => []

def scheduleStep (ws : List Nat) : Nat :=
  let n := ws.length
  add32 (add32 (smallSigma1 (ws.getD (n - 2) 0)) (ws.getD (n - 7) 0))
        (add32 (smallSigma0 (ws.getD (n - 15) 0)) (ws.getD (n - 16) 0))

def extendSchedule (ws : List Nat) : Nat → List Nat
  | 0 => ws
  | k + 1 => extendSchedule (ws ++ [scheduleStep ws]) k

structure Hash8 where
  a : Nat
  b : Nat
  c : Nat
  d : Nat
  e : Nat
  f : Nat
  g : Nat
  h : Nat

def sha256round (s : Hash8) (kw : Nat × Nat) : Hash8 :=
  let t1 := add32 s.h (add32 (add32 (bigSigma1 s.e) (chFn s.e s.f s.g)) (add32 kw.1 kw.2))
  let t2 := add32 (bigSigma0 s.a) (majFn s.a s.b s.c)
  { a := add32 t1 t2, b := s.a, c := s.b, d := s.c,
    e := add32 s.d t1, f := s.e, g := s.f, h := s.g }

def compressBlock (hs : List Nat) (block : List Nat) : List Nat :=
  let w := extendSchedule block 48
  let s0 : Hash8 :=
    ⟨hs.getD 0 0, hs.getD 1 0, hs.getD 2 0, hs.getD 3 0,
     hs.getD 4 0, hs.getD 5 0, hs.getD 6 0, hs.getD 7 0⟩
  let s := (K256.zip w).foldl sha256round s0
  [add32 (hs.getD 0 0) s.a, add32 (hs.getD 1 0) s.b, add32 (hs.getD 2 0) s.c,
   add32 (hs.getD 3 0) s.d, add32 (hs.getD 4 0) s.e, add32 (hs.getD 5 0) s.f,
   add32 (hs.getD 6 0) s.g, add32 (hs.getD 7 0) s.h]

def sha256words (msg : List Nat) : List Nat :=
  (wordsToBlocks (bytesToWords (padMessage msg))).foldl compressBlock sha256init

def hexDigit (n : Nat) : Char :=
  if n < 10 then Char.ofNat (48 + n) else Char.ofNat (87 + n)

def byteToHex (b : Nat) : List Char := [hexDigit (b / 16), hexDigit (b % 16)]

def wordToBytes (w : Nat) : List Nat := [w / 2 ^ 24 % 256, w / 2 ^ 16 % 256, w / 2 ^ 8 % 256, w % 256]

/-- Hash a byte list and hex-encode it, as the source does:
`hashArray.map(b => b.toString(16).padStart(2, '0')).join('')`. -/
def sha256hex (msg : List Nat) : String :=
  String.mk (((sha256words msg).map (fun w => ((wordToBytes w).map byteToHex).flatten)).flatten)

/-- TextEncoder model: UTF-8 encoding of one code point. -/
def utf8Enc (c : Nat) : List Nat :=
  if c < 0x80 then [c]
  else if c < 0x800 then [0xc0 + c / 64, 0x80 + c % 64]
  else if c < 0x10000 then [0xe0 + c / 4096, 0x80 + c / 64 % 64, 0x80 + c % 64]
  else [0xf0 + c / 262144, 0x80 + c / 4096 % 64, 0x80 + c / 64 % 64, 0x80 + c % 64]

def strBytes (s : String) : List Nat := (s.data.map (fun c => utf8Enc c.toNat)).flatten

/-- StorageService.hashJson: SHA-256 hex digest of the UTF-8 bytes of a string. -/
def hashJson (s : String) : String := sha256hex (strBytes s)

/-! ### JSON values and JSON.stringify

JS objects preserve key insertion order, and `JSON.stringify` serializes
fields in that order; the object constructor therefore carries an ordered
field list. Numbers in the repository's cached values are integral
(ids, timestamps), embedded as `Int`. -/

mutual

inductive Json where
  | null
  | bool (b : Bool)
  | num (n : Int)
  | str (s : String)
  | arr (elems : JsonList)
  | obj (fields : JsonFields)

inductive JsonList where
  | nil
  | cons (hd : Json) (tl : JsonList)

inductive JsonFields where
  | nil
  | cons (key : String) (val : Json) (tl : JsonFields)

end

/-- JSON string escaping as performed by `JSON.stringify`. -/
def escapeChar (c : Char) : List Char :=
  if c = '"' then ['\\', '"']
  else if c = '\\' then ['\\', '\\']
  else if c = Char.ofNat 8 then ['\\', 'b']
  else if c = Char.ofNat 9 then ['\\', 't']
  else if c = Char.ofNat 10 then ['\\', 'n']
  else if c = Char.ofNat 12 then ['\\', 'f']
  else if c = Char.ofNat 13 then ['\\', 'r']
  else if c.toNat < 32 then ['\\', 'u', '0', '0', hexDigit (c.toNat / 16), hexDigit (c.toNat % 16)]
  else [c]

def quoteStr (s : String) : String :=
  "\"" ++ String.mk ((s.data.map escapeChar).flatten) ++ "\""

mutual

/-- JSON.stringify over the value model; object fields are emitted in
insertion order, exactly as JS does. -/
def stringify : Json → String
  | .null => "null"
  | .bool b => if b then "true" else "false"
  | .num n => toString n
  | .str s => quoteStr s
  | .arr xs => "[" ++ stringifyList xs ++ "]"
  | .obj fs => "\x7b" ++ stringifyFields fs ++ "\x7d"

def stringifyList : JsonList → String
  | .nil => ""
  | .cons x .nil => stringify x
  | .cons x tl => stringify x ++ "," ++ stringifyList tl

def stringifyFields : JsonFields → String
  | .nil => ""
  | .cons k v .nil => quoteStr k ++ ":" ++ stringify v
  | .cons k v tl => quoteStr k ++ ":" ++ stringify v ++ "," ++ stringifyFields tl

end

/-- Length of an ordered field list. -/
def fieldsLength : JsonFields → Nat
  | .nil => 0
  | .cons _ _ tl => fieldsLength tl + 1

mutual

/-- Deep (structural) equality of JSON values in which object fields are
compared as key/value maps, irrespective of key insertion order. This is
the spec's notion of "deep-equal values regardless of key insertion
order"; it is not code of the repository. -/
def deepEq : Json → Json → Bool
  | .null, .null => true
  | .bool a, .bool b => a == b
  | .num a, .num b => a == b
  | .str a, .str b => a == b
  | .arr xs, .arr ys => deepEqList xs ys
  | .obj fs, .obj gs => fieldsLength fs == fieldsLength gs && deepEqFields fs gs
  | _, _ => false

def deepEqList : JsonList → JsonList → Bool
  | .nil, .nil => true
  | .cons x xs, .cons y ys => deepEq x y && deepEqList xs ys
  | _, _ => false

def deepEqFields : JsonFields → JsonFields → Bool
  | .nil, _ => true
  | .cons k v tl, gs => lookupDeepEq k v gs && deepEqFields tl gs

def lookupDeepEq (k : String) (v : Json) : JsonFields → Bool
  | .nil => false
  | .cons k2 w tl => if k == k2 then deepEq v w else lookupDeepEq k v tl

end

/-! ### StateManager: plannable items and the derived views -/

/-- The nested `plannable` record; `due_at` is `some t` (parsed epoch ms)
when the field is present and parseable, `none` otherwise. -/
structure Plannable where
  title : String
  due_at : Option Int
deriving DecidableEq, Repr

/-- A remote plannable item as consumed by StateManager. -/
structure PlannableItem where
  plannable_type : String
  plannable : Option Plannable
  context_name : String
  html_url : String
deriving DecidableEq, Repr

/-- The due date of an item, defined wherever the urgency/timeline filters
let the item through (`item.plannable.due_at`); 0 is an arbitrary default
that no filtered item ever takes. -/
def dueAt (it : PlannableItem) : Int :=
  (it.plannable.bind Plannable.due_at).getD 0

/-- The selection filter of computeUrgentAssignments: only assignments and
quizzes with a due date, with `0 ≤ dueDate - now ≤ 48h` (in ms). -/
def urgentFilter (now : Int) (it : PlannableItem) : Bool :=
  match it.plannable with
  | none => false
  | some p =>
    match p.due_at with
    | none => false
    | some d =>
      if it.plannable_type != "assignment" && it.plannable_type != "quiz" then false
      else decide (0 ≤ d - now) && decide (d - now ≤ 172800000)

/-- An element of the urgent-assignments derived view. -/
structure UrgentItem where
  item : PlannableItem
  hoursUntilDue : ℚ
  priority : String
  priorityColor : String
  dueDate : Int
deriving DecidableEq, Repr

/-- The annotation map of computeUrgentAssignments. `hoursUntilDue` is
`(dueDate - now) / (1000*60*60)`; the exact rational `Rat.divInt` is used
(`Rat.divInt t 3600000 = (t : ℚ) / 3600000`, proved below as
`divInt_3600000_eq`) because Mathlib's `Rat.mul`/`Rat.inv` are irreducible
and would block kernel evaluation on concrete inputs. -/
def mkUrgentItem (now : Int) (it : PlannableItem) : UrgentItem :=
  let d := dueAt it
  let hours : ℚ := Rat.divInt (d - now) 3600000
  { item := it
    hoursUntilDue := hours
    priority := if hours ≤ 24 then "red" else if hours ≤ 48 then "yellow" else "green"
    priorityColor := if hours ≤ 24 then "#ef5350" else if hours ≤ 48 then "#ffa726" else "#66bb6a"
    dueDate := d }

/-- Comparison used by the final `.sort((a, b) => a.hoursUntilDue - b.hoursUntilDue)`. -/
def byHours (a b : UrgentItem) : Prop := a.hoursUntilDue ≤ b.hoursUntilDue

instance : DecidableRel byHours := fun a b => inferInstanceAs (Decidable (_ ≤ _))

instance : IsTotal UrgentItem byHours := ⟨fun a b => le_total a.hoursUntilDue b.hoursUntilDue⟩

instance : IsTrans UrgentItem byHours := ⟨fun _ _ _ => le_trans⟩

/-- StateManager.computeUrgentAssignments: filter, annotate, sort ascending
by hoursUntilDue (JS Array.prototype.sort is stable; so is insertionSort). -/
def computeUrgentAssignments (items : List PlannableItem) (now : Int) : List UrgentItem :=
  ((items.filter (urgentFilter now)).map (mkUrgentItem now)).insertionSort byHours

/-- The timeline window length: 14 days in ms. -/
def totalWindowMs : Int := 1209600000

/-- The selection filter of computeTimelineData: assignments/quizzes with a
due date between start-of-today and the end of the day 14 days later. -/
def timelineFilter (today windowEnd : Int) (it : PlannableItem) : Bool :=
  match it.plannable with
  | none => false
  | some p =>
    match p.due_at with
    | none => false
    | some d =>
      if it.plannable_type != "assignment" && it.plannable_type != "quiz" then false
      else decide (today ≤ d) && decide (d ≤ windowEnd)

/-- First-stage timeline record (before positioning). -/
structure TimelineItem where
  item : PlannableItem
  dueDate : Int
  hoursUntilDue : ℚ
  daysUntilDue : Int
  priorityColor : String
deriving DecidableEq, Repr

/-- The first annotation map of computeTimelineData (`hoursUntilDue` is
measured from start-of-today, as the source reassigns `now` to midnight). -/
def mkTimelineItem (today : Int) (it : PlannableItem) : TimelineItem :=
  let d := dueAt it
  let hours : ℚ := Rat.divInt (d - today) 3600000
  { item := it
    dueDate := d
    hoursUntilDue := hours
    -- Math.floor(hoursUntilDue / 24); `⌊hours / 24⌋ = ⌊Rat.divInt (d - today) 86400000⌋`
    -- exactly (proved below as `floor_div24_divInt`); the divInt form keeps the
    -- definition kernel-computable.
    daysUntilDue := ⌊Rat.divInt (d - today) 86400000⌋
    priorityColor := if hours ≤ 24 then "#ef5350" else if hours ≤ 48 then "#ffa726" else "#66bb6a" }

/-- Comparison used by `.sort((a, b) => a.dueDate - b.dueDate)`. -/
def byDue (a b : TimelineItem) : Prop := a.dueDate ≤ b.dueDate

instance : DecidableRel byDue := fun a b => inferInstanceAs (Decidable (_ ≤ _))

instance : IsTotal TimelineItem byDue := ⟨fun a b => le_total a.dueDate b.dueDate⟩

instance : IsTrans TimelineItem byDue := ⟨fun _ _ _ => le_trans⟩

/-- A positioned timeline entry. -/
structure TimelineEntry extends TimelineItem where
  position : ℚ
  isFirst : Bool
  isLast : Bool
deriving DecidableEq, Repr

/-- The second map of computeTimelineData: clamp the relative position into
[0, 100] and mark first/last after sorting. -/
def attachPosition (today : Int) (len : Nat) (p : Nat × TimelineItem) : TimelineEntry :=
  -- ((dueDate - now) / totalWindowMs) * 100; over exact rationals this equals
  -- `Rat.divInt ((dueDate - today) * 100) totalWindowMs` (proved below as
  -- `divInt_position_eq`), which keeps the definition kernel-computable.
  let pos : ℚ := Rat.divInt ((p.2.dueDate - today) * 100) totalWindowMs
  { toTimelineItem := p.2
    position := max 0 (min 100 pos)
    isFirst := p.1 == 0
    isLast := p.1 == len - 1 }

/-- StateManager.computeTimelineData. `today` is the clock after
`setHours(0, 0, 0, 0)` (start of the current day); the window end is
`setHours(23, 59, 59, 999)` applied to `today + 14 days`. -/
def computeTimelineData (items : List PlannableItem) (today : Int) : List TimelineEntry :=
  let windowEnd := today + totalWindowMs + 86399999
  let sorted :=
    ((items.filter (timelineFilter today windowEnd)).map (mkTimelineItem today)).insertionSort byDue
  if sorted.isEmpty then []
  else sorted.enum.map (attachPosition today sorted.length)

/-- The sorted intermediate list of computeTimelineData. -/
def timelineSorted (items : List PlannableItem) (today : Int) : List TimelineItem :=
  ((items.filter (timelineFilter today (today + totalWindowMs + 86399999))).map
    (mkTimelineItem today)).insertionSort byDue

/-! ### StateManager: observable state container -/

/-- The StateManager snapshot. `courses` are opaque remote records (JSON). -/
structure AppState where
  courses : JsonList
  plannableItems : List PlannableItem
  urgentAssignments : List UrgentItem
  timelineData : List TimelineEntry
  isLoading : Bool
  error : Option String
  lastUpdate : Option Int

/-- The constructor's initial state. -/
def initialState : AppState :=
  { courses := .nil, plannableItems := [], urgentAssignments := [], timelineData := [],
    isLoading := false, error := none, lastUpdate := none }

/-- A `setState(updates)` argument: the object spread `{ ...state, ...updates }`
overwrites exactly the supplied keys. -/
structure StateUpdate where
  courses : Option JsonList := none
  plannableItems : Option (List PlannableItem) := none
  urgentAssignments : Option (List UrgentItem) := none
  timelineData : Option (List TimelineEntry) := none
  isLoading : Option Bool := none
  error : Option (Option String) := none
  lastUpdate : Option (Option Int) := none

/-- The spread merge `{ ...this.state, ...updates }`. -/
def mergeState (s : AppState) (u : StateUpdate) : AppState :=
  { courses := u.courses.getD s.courses
    plannableItems := u.plannableItems.getD s.plannableItems
    urgentAssignments := u.urgentAssignments.getD s.urgentAssignments
    timelineData := u.timelineData.getD s.timelineData
    isLoading := u.isLoading.getD s.isLoading
    error := u.error.getD s.error
    lastUpdate := u.lastUpdate.getD s.lastUpdate }

/-- StateManager.computeDerivedState: overwrite the two derived fields from
the current plannableItems and the clock (`now` for urgency, `today` for the
timeline, the two `new Date()` reads of the computation). -/
def computeDerivedState (s : AppState) (now today : Int) : AppState :=
  { s with urgentAssignments := computeUrgentAssignments s.plannableItems now
           timelineData := computeTimelineData s.plannableItems today }

/-- StateManager.setState: merge, recompute derived state, notify.
Notification delivery is modelled separately where a claim needs it. -/
def setState (s : AppState) (u : StateUpdate) (now today : Int) : AppState :=
  computeDerivedState (mergeState s u) now today

/-- StateManager.setLoading. -/
def setLoading (s : AppState) (b : Bool) (now today : Int) : AppState :=
  setState s { isLoading := some b } now today

/-- StateManager.setError: stores the message (or null). -/
def setError (s : AppState) (e : Option String) (now today : Int) : AppState :=
  setState s { error := some e } now today

/-- StateManager.updateCourses: replaces courses and stamps lastUpdate. -/
def updateCourses (s : AppState) (cs : JsonList) (now today : Int) : AppState :=
  setState s { courses := some cs, lastUpdate := some (some now) } now today

/-- StateManager.updatePlannableItems. -/
def updatePlannableItems (s : AppState) (ps : List PlannableItem) (now today : Int) : AppState :=
  setState s { plannableItems := some ps, lastUpdate := some (some now) } now today

/-- StateManager.clear: resets every field through setState. -/
def clearState (s : AppState) (now today : Int) : AppState :=
  setState s
    { courses := some .nil, plannableItems := some [], urgentAssignments := some [],
      timelineData := some [], isLoading := some false, error := some none,
      lastUpdate := some none } now today

/-! ### StorageService: cache slots, TTL reads, hash validation -/

/-- The three storage keys backing one cached collection:
`{key}`, `{key}Hash`, `{key}_timestamp`. -/
structure CacheSlot where
  data : Option Json
  hash : Option String
  timestamp : Option Int

/-- A slot none of whose keys is present. -/
def emptySlot : CacheSlot := { data := none, hash := none, timestamp := none }

/-- StorageService.setWithCache: writes value, fingerprint of its
serialization, and the write-time timestamp together. -/
def setWithCache (v : Json) (now : Int) : CacheSlot :=
  { data := some v, hash := some (hashJson (stringify v)), timestamp := some now }

/-- JS truthiness of a stored JSON value: null, false, 0, and "" are
falsy; arrays and objects (even empty ones) are truthy. -/
def jsTruthy : Json → Bool
  | .null => false
  | .bool b => b
  | .num n => n != 0
  | .str s => s != ""
  | .arr _ => true
  | .obj _ => true

/-- StorageService.getWithCache at clock `now` with the configured TTL.
Mirrors the JS truthiness tests: `if (!result[dataKey] || !result[hashKey])
return null` misses when either key is absent or holds a falsy value (the
hash is a string, falsy exactly when empty), and the TTL check
`if (timestamp && Date.now() - timestamp > this.CACHE_TTL)` is skipped
when the stored timestamp is 0 (falsy). -/
def getWithCache (slot : CacheSlot) (now ttl : Int) : Option Json :=
  match slot.data, slot.hash with
  | some d, some h =>
    if !jsTruthy d || h == "" then none
    else
      match slot.timestamp with
      | some t => if t ≠ 0 ∧ now - t > ttl then none else some d
      | none => some d
  | _, _ => none

/-- The source's CACHE_TTL: 5 minutes in ms. -/
def CACHE_TTL : Int := 300000

/-- StorageService.validateCache: reads only the stored hash and compares
it against the fingerprint of the freshly fetched data. -/
def validateCache (slot : CacheSlot) (newData : Json) : Bool :=
  match slot.hash with
  | none => false
  | some h => h == hashJson (stringify newData)

/-! ### content.js: background revalidation -/

/-- JSON form of a plannable record, as it is serialized for hashing when
`setPlannableItems` caches the fetched array (`due_at` appears as its
epoch-ms embedding). -/
def plannableToJson (p : Plannable) : Json :=
  .obj (.cons "title" (.str p.title)
    (match p.due_at with
     | some d => .cons "due_at" (.num d) .nil
     | none => .nil))

def plannableItemToJson (it : PlannableItem) : Json :=
  .obj (.cons "plannable_type" (.str it.plannable_type)
    (.cons "plannable" (match it.plannable with
                        | some p => plannableToJson p
                        | none => .null)
      (.cons "context_name" (.str it.context_name)
        (.cons "html_url" (.str it.html_url) .nil))))

def plannableListToJson : List PlannableItem → JsonList
  | [] => .nil
  | it :: its => .cons (plannableItemToJson it) (plannableListToJson its)

/-- The outcome of one background revalidation pass: the (possibly
rewritten) cache slot, the (possibly mutated) container state, and whether
any subscriber notification fired (updateCourses/updatePlannableItems
always notify; the valid branch calls neither). -/
structure RevalResult where
  slot : CacheSlot
  state : AppState
  notified : Bool

/-- content.js validateCoursesCache, after a successful fetch of `fresh`:
compare fingerprints; only on mismatch rewrite the cache and publish. -/
def validateCoursesCache (slot : CacheSlot) (st : AppState) (fresh : JsonList)
    (fetchTime now today : Int) : RevalResult :=
  if validateCache slot (Json.arr fresh) then
    { slot := slot, state := st, notified := false }
  else
    { slot := setWithCache (Json.arr fresh) fetchTime
      state := updateCourses st fresh now today
      notified := true }

/-- content.js validatePlannableCache, same shape for plannable items. -/
def validatePlannableCache (slot : CacheSlot) (st : AppState) (fresh : List PlannableItem)
    (fetchTime now today : Int) : RevalResult :=
  if validateCache slot (Json.arr (plannableListToJson fresh)) then
    { slot := slot, state := st, notified := false }
  else
    { slot := setWithCache (Json.arr (plannableListToJson fresh)) fetchTime
      state := updatePlannableItems st fresh now today
      notified := true }

/-! ### CanvasAPIService: two-tier authentication

One `fetch` call is modelled by the outcome the environment hands back:
either a response (status plus parsed JSON body) or a thrown transport
error. `fetchWithAuth` consumes the session outcome and up to two
outcomes for bearer-token requests (`t1`, then `t2`), and also returns the
log of requests it issued, tagged with the credential tier used. -/

/-- Parsed response body: either a payload with a JSON `errors` field or
ordinary data (opaque here). -/
inductive ApiBody where
  | errors (payload : String)
  | data (d : String)
deriving DecidableEq, Repr

structure HttpResponse where
  status : Nat
  body : ApiBody
deriving DecidableEq, Repr

/-- `response.ok`: status in the 2xx range. -/
def respOk (r : HttpResponse) : Bool := decide (200 ≤ r.status) && decide (r.status ≤ 299)

inductive FetchOutcome where
  | response (r : HttpResponse)
  | netError (msg : String)
deriving DecidableEq, Repr

/-- The errors the service can throw, by exception message class. -/
inductive ApiError where
  | httpError (status : Nat)
  | canvasApiError (payload : String)
  | invalidToken
  | transport (msg : String)
deriving DecidableEq, Repr

/-- A logged request, tagged with the credential tier it carried. -/
inductive AuthReq where
  | session
  | bearer (token : String)
deriving DecidableEq, Repr

/-- CanvasAPIService.fetchWithToken: a single bearer-authenticated request.
Throws on non-ok status (401 mapping to the invalid-token message), throws
on an `errors` payload even under a 2xx status, otherwise returns the data. -/
def fetchWithToken (o : FetchOutcome) : Except ApiError String :=
  match o with
  | .netError m => .error (.transport m)
  | .response r =>
    if !respOk r then
      if r.status = 401 then .error .invalidToken else .error (.httpError r.status)
    else
      match r.body with
      | .errors p => .error (.canvasApiError p)
      | .data d => .ok d

/-- CanvasAPIService.fetchWithAuth. The session request runs inside a
try/catch; on a 401 with a configured token the code returns
`fetchWithToken` from inside the try, so if that call throws, the catch
block runs `fetchWithToken` once more. Any other throw inside the try
(non-ok status, or an `errors` payload under 2xx) is also caught and, when
a token is configured, answered by one `fetchWithToken` call whose outcome
propagates. -/
def fetchWithAuth (token : Option String) (so t1 t2 : FetchOutcome) :
    Except ApiError String × List AuthReq :=
  match token with
  | some tk =>
    match so with
    | .netError _ => (fetchWithToken t1, [.session, .bearer tk])
    | .response r =>
      if r.status = 401 then
        match fetchWithToken t1 with
        | .ok d => (.ok d, [.session, .bearer tk])
        | .error _ => (fetchWithToken t2, [.session, .bearer tk, .bearer tk])
      else if !respOk r then (fetchWithToken t1, [.session, .bearer tk])
      else
        match r.body with
        | .errors _ => (fetchWithToken t1, [.session, .bearer tk])
        | .data d => (.ok d, [.session])
  | none =>
    match so with
    | .netError m => (.error (.transport m), [.session])
    | .response r =>
      if !respOk r then (.error (.httpError r.status), [.session])
      else
        match r.body with
        | .errors p => (.error (.canvasApiError p), [.session])
        | .data d => (.ok d, [.session])

/-- Count of bearer-authenticated requests in a request log. -/
def bearerCount (log : List AuthReq) : Nat :=
  (log.filter (fun a => match a with | .bearer _ => true | _ => false)).length

/-! ### content.js: handleSetApiToken -/

/-- The two persisted copies of the bearer credential: the service
instance field and the durable `chrome.storage.sync.apiToken` key. -/
structure TokenState where
  serviceToken : Option String
  storedToken : Option String
deriving DecidableEq, Repr

/-- CanvasAPIService.setApiToken: sets the instance field and persists. -/
def apiServiceSetToken (_ : TokenState) (token : String) : TokenState :=
  { serviceToken := some token, storedToken := some token }

/-- Event trace of handleSetApiToken, in execution order. -/
inductive TokenEvent where
  | persistService
  | persistStorage
  | runTest
  | respond (ok : Bool)
deriving DecidableEq, Repr

structure SetTokenResult where
  state : TokenState
  status : String
  events : List TokenEvent

/-- content.js handleSetApiToken: persist the new token (service instance
and durable storage), then run testConnection; respond success/error on
its verdict. Storage writes are modelled as succeeding; `testResult` is
the verdict testConnection returns. No branch restores the old token. -/
def handleSetApiToken (st : TokenState) (token : String) (testResult : Bool) : SetTokenResult :=
  let st1 := apiServiceSetToken st token
  let st2 := { st1 with storedToken := some token }
  if testResult then
    { state := st2, status := "success",
      events := [.persistService, .persistStorage, .runTest, .respond true] }
  else
    { state := st2, status := "error",
      events := [.persistService, .persistStorage, .runTest, .respond false] }

/-! ### Concrete fixtures used by witnesses and counterexamples -/

def vA : Json := .obj (.cons "a" (.num 1) (.cons "b" (.num 2) .nil))

def vB : Json := .obj (.cons "b" (.num 2) (.cons "a" (.num 1) .nil))

def vC : Json := .obj (.cons "a" (.num 1) .nil)

def vD : Json := .obj (.cons "a" (.num 2) .nil)

def itemDue1h : PlannableItem :=
  { plannable_type := "assignment", plannable := some { title := "HW", due_at := some 3600000 },
    context_name := "Course", html_url := "/hw" }

def itemDue3d : PlannableItem :=
  { plannable_type := "assignment", plannable := some { title := "Essay", due_at := some 259200000 },
    context_name := "Course", html_url := "/essay" }

def itemDue20d : PlannableItem :=
  { plannable_type := "quiz", plannable := some { title := "Quiz", due_at := some 1728000000 },
    context_name := "Course", html_url := "/quiz" }

/-! ### Helper lemmas -/

-- Known-answer tests: the SHA-256 model against FIPS 180-4 / NIST vectors,
-- and stringify on a concrete object.
theorem sha256_kat_abc :
    hashJson "abc" = "ba7816bf8f01cfea414140de5dae2223b00361a396177a9cb410ff61f20015ad" := by
  decide

theorem sha256_kat_empty :
    hashJson "" = "e3b0c44298fc1c149afbf4c8996fb92427ae41e4649b934ca495991b7852b855" := by
  decide

theorem stringify_kat :
    stringify (.obj (.cons "a" (.num 1) (.cons "b" (.num 2) .nil))) = "\x7b\"a\":1,\"b\":2\x7d" := by
  decide

theorem mem_computeUrgent {items : List PlannableItem} {now : Int} {u : UrgentItem}
    (hu : u ∈ computeUrgentAssignments items now) :
    ∃ it ∈ items, urgentFilter now it = true ∧ u = mkUrgentItem now it := by
  unfold computeUrgentAssignments at hu
  rw [List.mem_insertionSort] at hu
  obtain ⟨it, hit, rfl⟩ := List.mem_map.1 hu
  obtain ⟨hmem, hfil⟩ := List.mem_filter.1 hit
  exact ⟨it, hmem, hfil, rfl⟩

theorem urgentFilter_spec {now : Int} {it : PlannableItem} (h : urgentFilter now it = true) :
    (it.plannable_type = "assignment" ∨ it.plannable_type = "quiz") ∧
    it.plannable.bind Plannable.due_at = some (dueAt it) ∧
    0 ≤ dueAt it - now ∧ dueAt it - now ≤ 172800000 := by
  cases hp : it.plannable with
  | none => simp [urgentFilter, hp] at h
  | some p =>
    cases hd : p.due_at with
    | none => simp [urgentFilter, hp, hd] at h
    | some d =>
      have hdue : dueAt it = d := by simp [dueAt, hp, hd]
      simp only [urgentFilter, hp, hd] at h
      by_cases hty : it.plannable_type != "assignment" && it.plannable_type != "quiz"
      · rw [if_pos hty] at h; exact absurd h (by simp)
      · rw [if_neg hty] at h
        simp only [Bool.and_eq_true, decide_eq_true_eq] at h
        refine ⟨?_, ?_, ?_, ?_⟩
        · simp only [Bool.and_eq_true, bne_iff_ne, ne_eq, not_and_or, not_not] at hty
          tauto
        · simp [hp, hd, hdue]
        · rw [hdue]; exact h.1
        · rw [hdue]; exact h.2

theorem divInt_3600000_eq (t : Int) : Rat.divInt t 3600000 = (t : ℚ) / 3600000 := by
  rw [Rat.divInt_eq_div]; norm_num

theorem floor_div24_divInt (t : Int) :
    ⌊Rat.divInt t 86400000⌋ = ⌊Rat.divInt t 3600000 / 24⌋ := by
  rw [Rat.divInt_eq_div, Rat.divInt_eq_div, div_div]; norm_num

theorem divInt_position_eq (t : Int) :
    Rat.divInt (t * 100) totalWindowMs = 100 * (t : ℚ) / (totalWindowMs : ℚ) := by
  simp only [totalWindowMs]
  rw [Rat.divInt_eq_div]
  push_cast
  ring

theorem mkUrgentItem_hours {now : Int} {it : PlannableItem}
    (h0 : 0 ≤ dueAt it - now) (h48 : dueAt it - now ≤ 172800000) :
    0 ≤ (mkUrgentItem now it).hoursUntilDue ∧ (mkUrgentItem now it).hoursUntilDue ≤ 48 := by
  have hq : (mkUrgentItem now it).hoursUntilDue = Rat.divInt (dueAt it - now) 3600000 := rfl
  rw [hq, divInt_3600000_eq]
  constructor
  · apply div_nonneg _ (by norm_num)
    exact_mod_cast h0
  · rw [div_le_iff₀ (by norm_num : (0:ℚ) < 3600000)]
    calc ((dueAt it - now : Int) : ℚ) ≤ 172800000 := by exact_mod_cast h48
      _ = 48 * 3600000 := by norm_num

/-- C1: for every item list and clock instant, the urgency computation's
output is sorted non-decreasing by hoursUntilDue, and every element has
0 ≤ hoursUntilDue ≤ 48 and is an assignment/quiz whose due date lies
between now and now + 48h. -/
theorem computeUrgent_sorted_and_bounded (items : List PlannableItem) (now : Int) :
    (computeUrgentAssignments items now).Sorted byHours ∧
    ∀ u ∈ computeUrgentAssignments items now,
      0 ≤ u.hoursUntilDue ∧ u.hoursUntilDue ≤ 48 ∧
      (u.item.plannable_type = "assignment" ∨ u.item.plannable_type = "quiz") ∧
      u.item.plannable.bind Plannable.due_at = some u.dueDate ∧
      0 ≤ u.dueDate - now ∧ u.dueDate - now ≤ 172800000 := by
  constructor
  · exact List.sorted_insertionSort byHours _
  · intro u hu
    obtain ⟨it, _, hfil, rfl⟩ := mem_computeUrgent hu
    obtain ⟨hty, hdue, h0, h48⟩ := urgentFilter_spec hfil
    obtain ⟨hh0, hh48⟩ := mkUrgentItem_hours h0 h48
    exact ⟨hh0, hh48, hty, hdue, h0, h48⟩

theorem computeUrgent_sorted_and_bounded_witness :
    0 ≤ (mkUrgentItem 0 itemDue1h).hoursUntilDue ∧
    (mkUrgentItem 0 itemDue1h).hoursUntilDue ≤ 48 ∧
    ((mkUrgentItem 0 itemDue1h).item.plannable_type = "assignment" ∨
      (mkUrgentItem 0 itemDue1h).item.plannable_type = "quiz") ∧
    (mkUrgentItem 0 itemDue1h).item.plannable.bind Plannable.due_at =
      some (mkUrgentItem 0 itemDue1h).dueDate ∧
    0 ≤ (mkUrgentItem 0 itemDue1h).dueDate - 0 ∧
    (mkUrgentItem 0 itemDue1h).dueDate - 0 ≤ 172800000 :=
  (computeUrgent_sorted_and_bounded [itemDue1h] 0).2 (mkUrgentItem 0 itemDue1h) (by decide)

/-- C9: no element of the urgency computation's output ever carries the
third ("green"/normal) tier: the 48-hour pre-filter makes the final else
branch of the tier assignment unreachable. -/
theorem urgent_no_green_tier (items : List PlannableItem) (now : Int) :
    ∀ u ∈ computeUrgentAssignments items now,
      u.priority = "red" ∨ u.priority = "yellow" := by
  intro u hu
  obtain ⟨it, _, hfil, rfl⟩ := mem_computeUrgent hu
  obtain ⟨_, _, h0, h48⟩ := urgentFilter_spec hfil
  obtain ⟨_, hh48⟩ := mkUrgentItem_hours h0 h48
  have hpr : (mkUrgentItem now it).priority =
      (if Rat.divInt (dueAt it - now) 3600000 ≤ 24 then "red"
       else if Rat.divInt (dueAt it - now) 3600000 ≤ 48 then "yellow" else "green") := rfl
  have hq : (mkUrgentItem now it).hoursUntilDue = Rat.divInt (dueAt it - now) 3600000 := rfl
  rw [hq] at hh48
  rw [hpr]
  by_cases h24 : Rat.divInt (dueAt it - now) 3600000 ≤ 24
  · left; rw [if_pos h24]
  · right; rw [if_neg h24, if_pos hh48]

theorem urgent_no_green_tier_witness :
    (mkUrgentItem 0 itemDue1h).priority = "red" ∨
    (mkUrgentItem 0 itemDue1h).priority = "yellow" :=
  urgent_no_green_tier [itemDue1h] 0 (mkUrgentItem 0 itemDue1h) (by decide)

theorem snd_mem_of_mem_enumFrom {α : Type _} {p : Nat × α} :
    ∀ {l : List α} {n : Nat}, p ∈ l.enumFrom n → p.2 ∈ l := by
  intro l
  induction l with
  | nil => intro n h; simp [List.enumFrom] at h
  | cons a l ih =>
    intro n h
    simp only [List.enumFrom, List.mem_cons] at h
    rcases h with h | h
    · subst h; exact List.mem_cons_self _ _
    · exact List.mem_cons_of_mem _ (ih h)

theorem pairwise_enumFrom {α : Type _} {r : α → α → Prop} :
    ∀ (l : List α) (n : Nat), l.Pairwise r →
      (l.enumFrom n).Pairwise (fun p q => r p.2 q.2) := by
  intro l
  induction l with
  | nil => intro n _; simp [List.enumFrom]
  | cons a l ih =>
    intro n h
    rw [List.pairwise_cons] at h
    simp only [List.enumFrom]
    rw [List.pairwise_cons]
    exact ⟨fun q hq => h.1 q.2 (snd_mem_of_mem_enumFrom hq), ih (n + 1) h.2⟩

theorem timelineFilter_spec {today wEnd : Int} {it : PlannableItem}
    (h : timelineFilter today wEnd it = true) :
    (it.plannable_type = "assignment" ∨ it.plannable_type = "quiz") ∧
    it.plannable.bind Plannable.due_at = some (dueAt it) ∧
    today ≤ dueAt it ∧ dueAt it ≤ wEnd := by
  cases hp : it.plannable with
  | none => simp [timelineFilter, hp] at h
  | some p =>
    cases hd : p.due_at with
    | none => simp [timelineFilter, hp, hd] at h
    | some d =>
      have hdue : dueAt it = d := by simp [dueAt, hp, hd]
      simp only [timelineFilter, hp, hd] at h
      by_cases hty : it.plannable_type != "assignment" && it.plannable_type != "quiz"
      · rw [if_pos hty] at h; exact absurd h (by simp)
      · rw [if_neg hty] at h
        simp only [Bool.and_eq_true, decide_eq_true_eq] at h
        refine ⟨?_, ?_, ?_, ?_⟩
        · simp only [Bool.and_eq_true, bne_iff_ne, ne_eq, not_and_or, not_not] at hty
          tauto
        · simp [hp, hd, hdue]
        · rw [hdue]; exact h.1
        · rw [hdue]; exact h.2

theorem computeTimelineData_eq (items : List PlannableItem) (today : Int) :
    computeTimelineData items today =
      (timelineSorted items today).enum.map
        (attachPosition today (timelineSorted items today).length) := by
  simp only [computeTimelineData, timelineSorted]
  split
  next h =>
    rw [List.isEmpty_iff] at h
    rw [h]
    rfl
  next => rfl

theorem mem_timelineSorted {items : List PlannableItem} {today : Int} {t : TimelineItem}
    (ht : t ∈ timelineSorted items today) :
    ∃ it ∈ items, timelineFilter today (today + totalWindowMs + 86399999) it = true ∧
      t = mkTimelineItem today it := by
  unfold timelineSorted at ht
  rw [List.mem_insertionSort] at ht
  obtain ⟨it, hit, rfl⟩ := List.mem_map.1 ht
  obtain ⟨hmem, hfil⟩ := List.mem_filter.1 hit
  exact ⟨it, hmem, hfil, rfl⟩

/-- C5: every assignment/quiz item due inside the 14-day window
[startOfToday, end of the day startOfToday + 14 days] is included by the
timeline computation; each entry satisfies daysUntilDue = ⌊hoursUntilDue/24⌋
and position = clamp(100·(dueDate − windowStart)/(14·24h), 0, 100); output
is sorted ascending by due date with isFirst/isLast marked after sorting;
items outside the window are excluded (an item due in 20 days yields no
entry), and an item due in 3 days gets daysUntilDue = 3 and
position = 150/7 ≈ 21.4. -/
theorem computeTimelineData_spec (items : List PlannableItem) (today : Int) :
    (∀ e ∈ computeTimelineData items today,
        today ≤ e.dueDate ∧ e.dueDate ≤ today + totalWindowMs + 86399999 ∧
        (e.item.plannable_type = "assignment" ∨ e.item.plannable_type = "quiz") ∧
        e.daysUntilDue = ⌊e.hoursUntilDue / 24⌋ ∧
        e.position = max 0 (min 100 (100 * ((e.dueDate - today : Int) : ℚ) / (totalWindowMs : ℚ)))) ∧
    (∀ it ∈ items, timelineFilter today (today + totalWindowMs + 86399999) it = true →
        ∃ e ∈ computeTimelineData items today, e.toTimelineItem = mkTimelineItem today it) ∧
    (computeTimelineData items today).Pairwise (fun a b => a.dueDate ≤ b.dueDate) ∧
    (∀ i (hi : i < (computeTimelineData items today).length),
        ((computeTimelineData items today)[i].isFirst = true ↔ i = 0) ∧
        ((computeTimelineData items today)[i].isLast = true ↔
          i = (computeTimelineData items today).length - 1)) ∧
    (computeTimelineData [itemDue3d] 0).map (fun e => (e.daysUntilDue, e.position)) =
      [(3, (150 : ℚ) / 7)] ∧
    computeTimelineData [itemDue20d] 0 = [] := by
  refine ⟨?_, ?_, ?_, ?_, ?_, ?_⟩
  · -- field formulas and window bounds for every output entry
    intro e he
    rw [computeTimelineData_eq] at he
    obtain ⟨p, hp, rfl⟩ := List.mem_map.1 he
    rw [List.enum] at hp
    have hsnd := snd_mem_of_mem_enumFrom hp
    obtain ⟨it, _, hfil, hteq⟩ := mem_timelineSorted hsnd
    obtain ⟨hty, _, hlo, hhi⟩ := timelineFilter_spec hfil
    have hdueEq : (attachPosition today (timelineSorted items today).length p).dueDate
        = dueAt it := by
      show p.2.dueDate = dueAt it
      rw [hteq]
      rfl
    refine ⟨?_, ?_, ?_, ?_, ?_⟩
    · rw [hdueEq]; exact hlo
    · rw [hdueEq]; exact hhi
    · have hit : (attachPosition today (timelineSorted items today).length p).item = it := by
        show p.2.item = it
        rw [hteq]
        rfl
      rw [hit]; exact hty
    · show p.2.daysUntilDue = ⌊p.2.hoursUntilDue / 24⌋
      rw [hteq]
      exact floor_div24_divInt (dueAt it - today)
    · show max 0 (min 100 (Rat.divInt ((p.2.dueDate - today) * 100) totalWindowMs)) =
        max 0 (min 100 (100 * ((p.2.dueDate - today : Int) : ℚ) / (totalWindowMs : ℚ)))
      rw [divInt_position_eq]
  · -- inclusion of every in-window assignment/quiz item
    intro it hmem hfil
    have hmm : mkTimelineItem today it ∈ timelineSorted items today := by
      unfold timelineSorted
      rw [List.mem_insertionSort]
      exact List.mem_map_of_mem _ (List.mem_filter.2 ⟨hmem, hfil⟩)
    obtain ⟨i, hilen, hIdx⟩ := List.mem_iff_getElem.1 hmm
    refine ⟨attachPosition today (timelineSorted items today).length (i, mkTimelineItem today it),
      ?_, rfl⟩
    rw [computeTimelineData_eq]
    apply List.mem_map_of_mem
    exact List.mk_mem_enum_iff_getElem?.2 (by rw [List.getElem?_eq_getElem hilen, hIdx])
  · -- sorted ascending by due date
    rw [computeTimelineData_eq, List.enum]
    exact List.Pairwise.map _ (fun a b h => h)
      (pairwise_enumFrom _ 0 (List.sorted_insertionSort byDue _))
  · -- isFirst/isLast flags assigned by sorted index
    intro i hi
    have hi' : i < (timelineSorted items today).length := by
      rw [computeTimelineData_eq] at hi
      simpa using hi
    have hgl : (computeTimelineData items today).length = (timelineSorted items today).length := by
      rw [computeTimelineData_eq]; simp
    have hget : (computeTimelineData items today)[i] =
        attachPosition today (timelineSorted items today).length
          (i, (timelineSorted items today)[i]) := by
      have := computeTimelineData_eq items today
      rw [List.getElem_of_eq this, List.getElem_map, List.getElem_enum]
    rw [hget, hgl]
    constructor
    · show ((i == 0 : Bool) = true) ↔ i = 0
      simp
    · show ((i == (timelineSorted items today).length - 1 : Bool) = true) ↔
        i = (timelineSorted items today).length - 1
      simp
  · -- item due in 3 days: daysUntilDue 3, position 150/7
    have h7 : (150 : ℚ) / 7 = Rat.divInt 150 7 := by rw [Rat.divInt_eq_div]; norm_num
    rw [h7]
    decide
  · -- item due in 20 days: excluded
    decide

theorem computeTimelineData_spec_witness :
    ∃ e ∈ computeTimelineData [itemDue3d] 0, e.toTimelineItem = mkTimelineItem 0 itemDue3d :=
  (computeTimelineData_spec [itemDue3d] 0).2.1 itemDue3d (by decide) (by decide)

/-- C6 counterexample: the claim "expiry holds exactly when now − storedAt
> TTL" fails for an entry stored at timestamp 0: JS treats the stored
timestamp 0 as falsy and skips the TTL check entirely, so the read at
0 + TTL + 1 still returns the value instead of missing. -/
theorem getWithCache_zero_timestamp_cex :
    (300001 : Int) - 0 > CACHE_TTL ∧
    getWithCache (setWithCache (Json.arr .nil) 0) 300001 CACHE_TTL = some (Json.arr .nil) := by
  constructor
  · show (300001 : Int) - 0 > 300000
    decide
  · rfl

/-- The SHA-256 compression loop always yields an 8-word state. -/
theorem foldl_compress_length :
    ∀ (bs : List (List Nat)) (hs : List Nat), hs.length = 8 →
      (bs.foldl compressBlock hs).length = 8
  | [], _, h => h
  | _ :: bs, hs, _ => foldl_compress_length bs (compressBlock hs _) rfl

/-- A SHA-256 hex digest is never the empty string (it always has 64
characters), so a stored fingerprint is never JS-falsy. -/
theorem sha256hex_ne_empty (msg : List Nat) : sha256hex msg ≠ "" := by
  have h8 : (sha256words msg).length = 8 :=
    foldl_compress_length (wordsToBlocks (bytesToWords (padMessage msg))) sha256init rfl
  unfold sha256hex
  cases hw : sha256words msg with
  | nil => rw [hw] at h8; simp at h8
  | cons a l =>
    intro hcontra
    have hdata := congrArg String.data hcontra
    simp [wordToBytes, byteToHex] at hdata

/-- C6 (amended): for an entry holding a JS-truthy value (every collection
the source caches is an array, always truthy) stored at any nonzero
timestamp T, a read at T + TTL − 1 returns the value, a read at
T + TTL + 1 misses, expiry holds exactly when now − T > TTL, and a read of
an absent key always misses; entries whose stored timestamp is exactly 0
(JS falsy) never expire, and a falsy stored value is always a miss. -/
theorem cache_ttl_boundary (v : Json) (T ttl : Int) (hT : T ≠ 0)
    (hv : jsTruthy v = true) :
    getWithCache (setWithCache v T) (T + ttl - 1) ttl = some v ∧
    getWithCache (setWithCache v T) (T + ttl + 1) ttl = none ∧
    (∀ now : Int, getWithCache (setWithCache v T) now ttl = none ↔ now - T > ttl) ∧
    (∀ now : Int, getWithCache emptySlot now ttl = none) ∧
    (∀ (w : Json) (now : Int), jsTruthy w = false →
      getWithCache (setWithCache w T) now ttl = none) := by
  have hguard : ∀ (w : Json), (!jsTruthy w || hashJson (stringify w) == "") = !jsTruthy w := by
    intro w
    have hne : (hashJson (stringify w) == "") = false := by
      rw [beq_eq_false_iff_ne]
      exact sha256hex_ne_empty (strBytes (stringify w))
    rw [hne, Bool.or_false]
  have hred : ∀ now : Int, getWithCache (setWithCache v T) now ttl =
      if T ≠ 0 ∧ now - T > ttl then none else some v := by
    intro now
    show (if !jsTruthy v || hashJson (stringify v) == "" then none
          else if T ≠ 0 ∧ now - T > ttl then none else some v) = _
    rw [hguard v, hv]
    rfl
  refine ⟨?_, ?_, ?_, fun now => rfl, ?_⟩
  · rw [hred, if_neg]
    omega
  · rw [hred, if_pos]
    exact ⟨hT, by omega⟩
  · intro now
    rw [hred]
    constructor
    · intro h
      by_contra hc
      rw [if_neg (by tauto)] at h
      exact Option.some_ne_none v h
    · intro h
      rw [if_pos ⟨hT, h⟩]
  · intro w now hw
    show (if !jsTruthy w || hashJson (stringify w) == "" then none
          else if T ≠ 0 ∧ now - T > ttl then none else some w) = _
    rw [hguard w, hw]
    rfl

theorem cache_ttl_boundary_witness :
    getWithCache (setWithCache (Json.arr .nil) 5) (5 + CACHE_TTL - 1) CACHE_TTL =
      some (Json.arr .nil) ∧
    getWithCache (setWithCache (Json.arr .nil) 5) (5 + CACHE_TTL + 1) CACHE_TTL = none :=
  ⟨(cache_ttl_boundary (Json.arr .nil) 5 CACHE_TTL (by decide) (by decide)).1,
   (cache_ttl_boundary (Json.arr .nil) 5 CACHE_TTL (by decide) (by decide)).2.1⟩

/-- C7: when the freshly fetched collection hashes to the fingerprint
already cached for it, background revalidation is a no-op: the data key,
hash key, and timestamp key of the cache slot are unchanged, the state
container's snapshot is unchanged, and no subscriber notification fires —
for the courses pass and the plannable pass alike. -/
theorem revalidation_noop (cSlot pSlot : CacheSlot) (st : AppState)
    (csFresh : JsonList) (psFresh : List PlannableItem) (ft now today : Int)
    (hc : cSlot.hash = some (hashJson (stringify (Json.arr csFresh))))
    (hp : pSlot.hash = some (hashJson (stringify (Json.arr (plannableListToJson psFresh))))) :
    validateCoursesCache cSlot st csFresh ft now today = ⟨cSlot, st, false⟩ ∧
    validatePlannableCache pSlot st psFresh ft now today = ⟨pSlot, st, false⟩ := by
  constructor
  · unfold validateCoursesCache
    rw [if_pos]
    unfold validateCache
    rw [hc]
    simp
  · unfold validatePlannableCache
    rw [if_pos]
    unfold validateCache
    rw [hp]
    simp

theorem revalidation_noop_witness :
    validateCoursesCache (setWithCache (Json.arr .nil) 0) initialState .nil 1 2 3 =
      ⟨setWithCache (Json.arr .nil) 0, initialState, false⟩ ∧
    validatePlannableCache (setWithCache (Json.arr .nil) 0) initialState [] 1 2 3 =
      ⟨setWithCache (Json.arr .nil) 0, initialState, false⟩ :=
  revalidation_noop (setWithCache (Json.arr .nil) 0) (setWithCache (Json.arr .nil) 0)
    initialState .nil [] 1 2 3 rfl rfl

/-- C8: after setState and after each convenience mutator, the snapshot's
urgentAssignments and timelineData equal the derived-view recomputation
from the snapshot's own plannableItems and the clock of that mutation,
even when the update object supplies those fields directly (the final
conjunct: any supplied urgentAssignments/timelineData are ignored). -/
theorem derived_state_invariant (s : AppState) (u : StateUpdate) (now today : Int)
    (b : Bool) (e : Option String) (cs : JsonList) (ps : List PlannableItem) :
    (setState s u now today).urgentAssignments =
      computeUrgentAssignments (setState s u now today).plannableItems now ∧
    (setState s u now today).timelineData =
      computeTimelineData (setState s u now today).plannableItems today ∧
    (setLoading s b now today).urgentAssignments =
      computeUrgentAssignments (setLoading s b now today).plannableItems now ∧
    (setLoading s b now today).timelineData =
      computeTimelineData (setLoading s b now today).plannableItems today ∧
    (setError s e now today).urgentAssignments =
      computeUrgentAssignments (setError s e now today).plannableItems now ∧
    (setError s e now today).timelineData =
      computeTimelineData (setError s e now today).plannableItems today ∧
    (updateCourses s cs now today).urgentAssignments =
      computeUrgentAssignments (updateCourses s cs now today).plannableItems now ∧
    (updateCourses s cs now today).timelineData =
      computeTimelineData (updateCourses s cs now today).plannableItems today ∧
    (updatePlannableItems s ps now today).urgentAssignments =
      computeUrgentAssignments (updatePlannableItems s ps now today).plannableItems now ∧
    (updatePlannableItems s ps now today).timelineData =
      computeTimelineData (updatePlannableItems s ps now today).plannableItems today ∧
    (clearState s now today).urgentAssignments =
      computeUrgentAssignments (clearState s now today).plannableItems now ∧
    (clearState s now today).timelineData =
      computeTimelineData (clearState s now today).plannableItems today ∧
    (∀ ua td, setState s { u with urgentAssignments := some ua, timelineData := some td }
        now today =
      setState s { u with urgentAssignments := none, timelineData := none } now today) :=
  ⟨rfl, rfl, rfl, rfl, rfl, rfl, rfl, rfl, rfl, rfl, rfl, rfl, fun _ _ => rfl⟩

/-- C10: the set-credential command persists the new token into the
service instance and durable storage before running the credential test;
on a failed test the command responds with an error status while the new
token remains the persisted credential (no rollback to the previous
token), so subsequent token-fallback attempts use it. -/
theorem handleSetApiToken_persists_before_test (st : TokenState) (token : String) :
    (∀ b, (handleSetApiToken st token b).state =
      { serviceToken := some token, storedToken := some token }) ∧
    (handleSetApiToken st token false).status = "error" ∧
    (handleSetApiToken st token false).events =
      [.persistService, .persistStorage, .runTest, .respond false] := by
  refine ⟨fun b => ?_, rfl, rfl⟩
  cases b <;> rfl

/-- C2 counterexample: the fingerprint is not stable under key-order-
independent serialization. The deep-equal objects
`\x7b"a":1,"b":2\x7d` and `\x7b"b":2,"a":1\x7d` (same key/value map,
different insertion order) serialize differently under JSON.stringify,
and their SHA-256 fingerprints differ. -/
theorem hashJson_key_order_cex :
    deepEq vA vB = true ∧ hashJson (stringify vA) ≠ hashJson (stringify vB) := by
  constructor
  · simp [vA, vB, deepEq, deepEqFields, lookupDeepEq, fieldsLength]
  · have hA : stringify vA = "\x7b\"a\":1,\"b\":2\x7d" := by decide
    have hB : stringify vB = "\x7b\"b\":2,\"a\":1\x7d" := by decide
    rw [hA, hB]
    decide

/-- C2 (amended): the fingerprint is deterministic as a function of the
serialized value — equal JSON.stringify outputs yield equal fingerprints,
so repeated calls on the same value agree — and values that differ in
content yield different fingerprints for practical inputs (witnessed by
the concrete pair vC, vD); but serialization preserves object key
insertion order, so deep-equal values with different key order may
produce different fingerprints. -/
theorem hashJson_deterministic_on_serialization (v w : Json)
    (h : stringify v = stringify w) :
    hashJson (stringify v) = hashJson (stringify w) ∧
    hashJson (stringify vC) ≠ hashJson (stringify vD) := by
  constructor
  · rw [h]
  · have hC : stringify vC = "\x7b\"a\":1\x7d" := by decide
    have hD : stringify vD = "\x7b\"a\":2\x7d" := by decide
    rw [hC, hD]
    decide

theorem hashJson_deterministic_on_serialization_witness :
    hashJson (stringify vA) = hashJson (stringify vA) ∧
    hashJson (stringify vC) ≠ hashJson (stringify vD) :=
  hashJson_deterministic_on_serialization vA vA rfl

/-- C3 counterexample: after a 401 session response with a token
configured, the token-authenticated follow-up runs inside the try block;
when it throws (here: a transport error), the catch handler issues a
second token-authenticated request — the request log carries two bearer
requests, refuting "exactly one follow-up request ... no further
automatic retries". -/
theorem fetchWithAuth_double_retry_cex :
    fetchWithAuth (some "tok") (.response ⟨401, .data ""⟩) (.netError "boom")
        (.response ⟨200, .data "fresh"⟩) =
      (.ok "fresh", [.session, .bearer "tok", .bearer "tok"]) ∧
    bearerCount [AuthReq.session, .bearer "tok", .bearer "tok"] = 2 :=
  ⟨rfl, rfl⟩

/-- C3 (amended): on a 401 session response with a token configured, if
the token follow-up resolves, exactly one bearer request is issued and
its result returned; if the token follow-up throws, the catch handler
issues exactly one additional bearer request (two in total) and that
second request's outcome — success or error — is what the caller gets;
no retries occur beyond these. -/
theorem fetchWithAuth_fallback_behavior (tk : String) (r : HttpResponse)
    (t1 t2 : FetchOutcome) (h401 : r.status = 401) :
    (∀ d, fetchWithToken t1 = .ok d →
      fetchWithAuth (some tk) (.response r) t1 t2 = (.ok d, [.session, .bearer tk])) ∧
    (∀ e, fetchWithToken t1 = .error e →
      fetchWithAuth (some tk) (.response r) t1 t2 =
        (fetchWithToken t2, [.session, .bearer tk, .bearer tk])) := by
  constructor
  · intro d hd
    simp [fetchWithAuth, h401, hd]
  · intro e he
    simp [fetchWithAuth, h401, he]

theorem fetchWithAuth_fallback_behavior_witness :
    fetchWithAuth (some "tok") (.response ⟨401, .data ""⟩) (.response ⟨200, .data "x"⟩)
        (.netError "n") = (.ok "x", [.session, .bearer "tok"]) :=
  (fetchWithAuth_fallback_behavior "tok" ⟨401, .data ""⟩ (.response ⟨200, .data "x"⟩)
    (.netError "n") rfl).1 "x" rfl

/-- C4 counterexample: a 2xx session response carrying an `errors` payload
is not surfaced as a RemoteApiError when a bearer token is configured:
the throw is caught and the request is silently retried on the token
tier, whose data is returned to the caller. -/
theorem fetchWithAuth_errors_payload_retry_cex :
    fetchWithAuth (some "tok") (.response ⟨200, .errors "oops"⟩) (.response ⟨200, .data "x"⟩)
        (.netError "n") = (.ok "x", [.session, .bearer "tok"]) :=
  rfl

/-- C4 (amended): a 2xx response with an application-level `errors`
payload fails with the Canvas-API error carrying that payload when no
token is configured, and on the token tier itself (where it is never
retried and never returned as data); but when a token is configured and
the payload arrives on the session tier, the client instead retries once
with the bearer credential and returns that follow-up's outcome. -/
theorem errors_payload_failure_behavior (p : String) (r : HttpResponse)
    (t1 t2 : FetchOutcome) (tk : String)
    (hok : respOk r = true) (hbody : r.body = .errors p) :
    fetchWithAuth none (.response r) t1 t2 = (.error (.canvasApiError p), [.session]) ∧
    fetchWithToken (.response r) = .error (.canvasApiError p) ∧
    fetchWithAuth (some tk) (.response r) t1 t2 = (fetchWithToken t1, [.session, .bearer tk]) := by
  have h401 : r.status ≠ 401 := by
    simp only [respOk, Bool.and_eq_true, decide_eq_true_eq] at hok
    omega
  refine ⟨?_, ?_, ?_⟩
  · simp [fetchWithAuth, hok, hbody]
  · simp [fetchWithToken, hok, hbody]
  · simp [fetchWithAuth, hok, hbody, h401]

theorem errors_payload_failure_behavior_witness :
    fetchWithAuth none (.response ⟨200, .errors "oops"⟩) (.netError "a") (.netError "b") =
      (.error (.canvasApiError "oops"), [.session]) ∧
    fetchWithToken (.response ⟨200, .errors "oops"⟩) = .error (.canvasApiError "oops") :=
  ⟨(errors_payload_failure_behavior "oops" ⟨200, .errors "oops"⟩ (.netError "a") (.netError "b")
      "tok" rfl rfl).1,
   (errors_payload_failure_behavior "oops" ⟨200, .errors "oops"⟩ (.netError "a") (.netError "b")
      "tok" rfl rfl).2.1⟩
